import Mathlib

/-!
Verification of `scripts/sync_storagehub_textures.py`.

The script copies a fixed set of texture files according to a static mapping
table (`MAPPINGS`) and, for tile targets flagged `pad_tile_2x2`, re-packs a
32x32 four-quadrant sprite sheet into a 36x36 sheet with 2-pixel gutters
(`pad_2x2_tile_sheet`).

Raster images are embedded as a width, a height and a total pixel-lookup
function; the PIL primitives used by the script (`Image.new`, `crop`,
`paste`, `convert`) are embedded value-semantically.  The fallible transform
returns `Except String Image` (Python raises `ValueError`).  The sync driver
`main` is embedded as `runSync`, a pure function from a source folder
(a partial map of file names to images) to the list of written outputs, the
`copied` and `skipped` counters and the exit code.
-/

/-- One RGBA pixel: four 8-bit channels red, green, blue, alpha. -/
structure Pixel where
  r : Nat
  g : Nat
  b : Nat
  a : Nat
deriving DecidableEq

/-- Fully transparent black, the fill `(0, 0, 0, 0)` passed to `Image.new`. -/
def Pixel.clear : Pixel := ⟨0, 0, 0, 0⟩

/-- A raster image: a width, a height, and a pixel at each coordinate.
`pix x y` addresses column `x`, row `y`, origin top-left; only coordinates
with `x < width` and `y < height` are pixels of the image. -/
structure Image where
  width : Nat
  height : Nat
  pix : Nat → Nat → Pixel

/-- Embeds `image.convert("RGBA")`: the model is already RGBA, so the
conversion is the identity on the image value (PIL returns a fresh copy,
which value-semantically is the same image). -/
def Image.convert (img : Image) : Image := img

/-- Embeds `Image.new("RGBA", (w, h), fill)`: a `w`x`h` image with every
pixel the fill colour. -/
def Image.new (w h : Nat) (fill : Pixel) : Image := ⟨w, h, fun _ _ => fill⟩

/-- Embeds `img.crop((l, t, r, b))`: the sub-image of size `(r-l)`x`(b-t)`
whose pixel `(x, y)` is `img`'s pixel `(l+x, t+y)`.  (The script only crops
boxes inside the image bounds.) -/
def Image.crop (img : Image) (l t r b : Nat) : Image :=
  ⟨r - l, b - t, fun x y => img.pix (l + x) (t + y)⟩

/-- Embeds `base.paste(region, (ox, oy))`: writes `region` into `base` at
offset `(ox, oy)`, clipped to `base`'s bounds; pixels outside the pasted
rectangle keep `base`'s value.  PIL mutates the receiver; the embedding
returns the updated image. -/
def Image.paste (base region : Image) (ox oy : Nat) : Image :=
  ⟨base.width, base.height, fun x y =>
    if ox ≤ x ∧ x < ox + region.width ∧ oy ≤ y ∧ y < oy + region.height ∧
        x < base.width ∧ y < base.height then
      region.pix (x - ox) (y - oy)
    else base.pix x y⟩

/-- The four crop-and-paste operations of `pad_2x2_tile_sheet` on a 32x32
source: the 16x16 quadrants pasted at `(0,0)`, `(18,0)`, `(0,18)`, `(18,18)`
onto a fresh transparent 36x36 canvas. -/
def repack32 (src : Image) : Image :=
  ((((Image.new 36 36 Pixel.clear).paste
      (src.crop 0 0 16 16) 0 0).paste
      (src.crop 16 0 32 16) 18 0).paste
      (src.crop 0 16 16 32) 0 18).paste
      (src.crop 16 16 32 32) 18 18

/-- Embeds `pad_2x2_tile_sheet(image)`: a 36x36 image is returned unchanged;
a 32x32 image is converted to RGBA and repacked onto a 36x36 canvas; any
other size raises `ValueError` (embedded as `Except.error`). -/
def pad_2x2_tile_sheet (image : Image) : Except String Image :=
  if image.width = 36 ∧ image.height = 36 then
    Except.ok image
  else if image.width = 32 ∧ image.height = 32 then
    Except.ok (repack32 image.convert)
  else
    Except.error ("Expected tile source size 32x32 or 36x36, got " ++
      toString image.width ++ "x" ++ toString image.height)

/-- Embeds the `TextureMapping` dataclass: one source file name, optional
item and tile target names, and the `pad_tile_2x2` flag. -/
structure TextureMapping where
  source_name : String
  item_target_name : Option String := none
  tile_target_name : Option String := none
  pad_tile_2x2 : Bool := false
deriving DecidableEq

/-- Embeds the static `MAPPINGS` table of the script. -/
def MAPPINGS : List TextureMapping :=
  [ { source_name := "storage-core.png",
      item_target_name := some "storage-heart.png",
      tile_target_name := some "storage-heart.png",
      pad_tile_2x2 := true },
    { source_name := "storage-drive.png",
      item_target_name := some "storage-unit.png",
      tile_target_name := some "storage-unit.png",
      pad_tile_2x2 := true },
    { source_name := "storage-disk-tier-1.png",
      item_target_name := some "storage-disk.png" },
    { source_name := "disk-upgrader.png",
      item_target_name := some "disk-upgrader.png",
      tile_target_name := some "disk-upgrader.png",
      pad_tile_2x2 := true } ]

/-- Python truthiness of an `Optional[str]`: `None` and the empty string are
falsy, every other string is truthy (`if mapping.item_target_name:`). -/
def optTruthy : Option String → Bool
  | none => false
  | some s => !s.isEmpty

/-- Processing of one mapping record by the `main` loop: a missing source
is a skip; otherwise the loaded image is written to the item target (when
truthy) and to the tile target (when truthy), padded first when the
`pad_tile_2x2` flag is set.  Returns the written `(path, image)` outputs and
the record's contributions to the `copied` and `skipped` counters; a
`ValueError` from the transform propagates. -/
def processMapping (src : String → Option Image) (m : TextureMapping) :
    Except String (List (String × Image) × Nat × Nat) :=
  match src m.source_name with
  | none => Except.ok ([], 0, 1)
  | some img =>
    let itemOuts : List (String × Image) :=
      if optTruthy m.item_target_name then
        [("items/" ++ m.item_target_name.getD "", img)]
      else []
    if optTruthy m.tile_target_name then
      if m.pad_tile_2x2 then
        match pad_2x2_tile_sheet img with
        | Except.error e => Except.error e
        | Except.ok t =>
          Except.ok (itemOuts ++ [("tiles/" ++ m.tile_target_name.getD "", t)],
            itemOuts.length + 1, 0)
      else
        Except.ok (itemOuts ++ [("tiles/" ++ m.tile_target_name.getD "", img)],
          itemOuts.length + 1, 0)
    else
      Except.ok (itemOuts, itemOuts.length, 0)

/-- Folds `processMapping` over a list of records in table order,
concatenating outputs and summing the counters; the first error aborts the
run (an uncaught Python exception). -/
def runSyncAux (src : String → Option Image) :
    List TextureMapping → Except String (List (String × Image) × Nat × Nat)
  | [] => Except.ok ([], 0, 0)
  | m :: rest =>
    match processMapping src m with
    | Except.error e => Except.error e
    | Except.ok (o1, c1, s1) =>
      match runSyncAux src rest with
      | Except.error e => Except.error e
      | Except.ok (o2, c2, s2) => Except.ok (o1 ++ o2, c1 + c2, s1 + s2)

/-- The observable outcome of a completed run of `main`: the outputs
written, the final `copied` and `skipped` counters, and the value returned
by `main` (its exit code). -/
structure SyncResult where
  outputs : List (String × Image)
  copied : Nat
  skipped : Nat
  exitCode : Nat
deriving Inhabited

/-- Embeds the record-processing loop of `main` over the whole `MAPPINGS`
table: on completion `main` returns 0. -/
def runSync (src : String → Option Image) : Except String SyncResult :=
  match runSyncAux src MAPPINGS with
  | Except.error e => Except.error e
  | Except.ok (o, c, s) => Except.ok ⟨o, c, s, 0⟩

/-- A concrete 32x32 fully opaque RGBA test image. -/
def testCore : Image := ⟨32, 32, fun x y => ⟨x % 256, y % 256, 7, 255⟩⟩

/-- A concrete 16x16 RGBA test image (an arbitrary-size source). -/
def testDisk : Image := ⟨16, 16, fun _ _ => ⟨1, 2, 3, 4⟩⟩

/-- A concrete 36x36 RGBA test image (already-padded layout). -/
def testPadded : Image := ⟨36, 36, fun x y => ⟨x % 7, y % 7, 0, 9⟩⟩

/-- A concrete 64x64 RGBA test image (neither accepted size). -/
def testBig : Image := ⟨64, 64, fun _ _ => ⟨5, 5, 5, 5⟩⟩

/-- Width of a paste is the base width. -/
@[simp] theorem Image.paste_width (base region : Image) (ox oy : Nat) :
    (base.paste region ox oy).width = base.width := rfl

/-- Height of a paste is the base height. -/
@[simp] theorem Image.paste_height (base region : Image) (ox oy : Nat) :
    (base.paste region ox oy).height = base.height := rfl

/-- Width of a crop is right minus left. -/
@[simp] theorem Image.crop_width (img : Image) (l t r b : Nat) :
    (img.crop l t r b).width = r - l := rfl

/-- Height of a crop is lower minus upper. -/
@[simp] theorem Image.crop_height (img : Image) (l t r b : Nat) :
    (img.crop l t r b).height = b - t := rfl

/-- Pixel of a crop, relative to the crop box origin. -/
@[simp] theorem Image.crop_pix (img : Image) (l t r b x y : Nat) :
    (img.crop l t r b).pix x y = img.pix (l + x) (t + y) := rfl

/-- Pixel of a fresh canvas is the fill colour. -/
@[simp] theorem Image.new_pix (w h : Nat) (fill : Pixel) (x y : Nat) :
    (Image.new w h fill).pix x y = fill := rfl

/-- Width of a fresh canvas. -/
@[simp] theorem Image.new_width (w h : Nat) (fill : Pixel) :
    (Image.new w h fill).width = w := rfl

/-- Height of a fresh canvas. -/
@[simp] theorem Image.new_height (w h : Nat) (fill : Pixel) :
    (Image.new w h fill).height = h := rfl

/-- Pixel of a paste: the region's pixel inside the pasted rectangle, the
base's pixel outside it. -/
theorem Image.paste_pix (base region : Image) (ox oy x y : Nat) :
    (base.paste region ox oy).pix x y =
      if ox ≤ x ∧ x < ox + region.width ∧ oy ≤ y ∧ y < oy + region.height ∧
          x < base.width ∧ y < base.height then
        region.pix (x - ox) (y - oy)
      else base.pix x y := rfl

/-- Closed form for every pixel of the repacked canvas: each of the four
pasted quadrant rectangles reads the source shifted back by its gutter
offset; everything else is transparent black. -/
theorem repack32_pix (src : Image) (x y : Nat) :
    (repack32 src).pix x y =
      if 18 ≤ x ∧ x < 34 ∧ 18 ≤ y ∧ y < 34 then src.pix (x - 2) (y - 2)
      else if x < 16 ∧ 18 ≤ y ∧ y < 34 then src.pix x (y - 2)
      else if 18 ≤ x ∧ x < 34 ∧ y < 16 then src.pix (x - 2) y
      else if x < 16 ∧ y < 16 then src.pix x y
      else Pixel.clear := by
  simp only [repack32, Image.paste_pix, Image.crop_pix, Image.crop_width,
    Image.crop_height, Image.new_pix, Image.new_width, Image.new_height,
    Image.paste_width, Image.paste_height]
  norm_num
  split_ifs <;> first
    | rfl
    | omega
    | (congr 1 <;> omega)

/-- On a 32x32 input the transform succeeds and returns the repacked
canvas (the `convert` step is the identity on the model). -/
theorem pad_ok_of_size32 (img : Image) (hw : img.width = 32)
    (hh : img.height = 32) :
    pad_2x2_tile_sheet img = Except.ok (repack32 img) := by
  simp [pad_2x2_tile_sheet, hw, hh, Image.convert]

/-- C1: for every 32x32 RGBA input `img`, the output of
`pad_2x2_tile_sheet` places the four 16x16 quadrants of `img` unchanged at
fixed offsets: top-left at `(0,0)`, top-right at `(18,0)`, bottom-left at
`(0,18)`, bottom-right at `(18,18)`, with no resampling or blending. -/
theorem pad_preserves_quadrants (img out : Image)
    (hw : img.width = 32) (hh : img.height = 32)
    (hout : pad_2x2_tile_sheet img = Except.ok out) :
    (∀ x y, x < 16 → y < 16 → out.pix x y = img.pix x y) ∧
    (∀ x y, x < 16 → 16 ≤ y → y < 32 → out.pix x (y + 2) = img.pix x y) ∧
    (∀ x y, 16 ≤ x → x < 32 → y < 16 → out.pix (x + 2) y = img.pix x y) ∧
    (∀ x y, 16 ≤ x → x < 32 → 16 ≤ y → y < 32 →
      out.pix (x + 2) (y + 2) = img.pix x y) := by
  rw [pad_ok_of_size32 img hw hh] at hout
  obtain rfl : repack32 img = out := by
    cases hout
    rfl
  refine ⟨?_, ?_, ?_, ?_⟩ <;>
    (intro x y
     intros
     rw [repack32_pix]
     split_ifs <;> first
       | rfl
       | omega
       | (congr 1 <;> omega))

/-- C1 witness: on the concrete 32x32 image `testCore` the top-left corner
and a bottom-right-quadrant pixel land unchanged at their offsets. -/
theorem pad_preserves_quadrants_witness :
    ∃ out, pad_2x2_tile_sheet testCore = Except.ok out ∧
      out.pix 0 0 = testCore.pix 0 0 ∧ out.pix 20 21 = testCore.pix 18 19 := by
  refine ⟨repack32 testCore, rfl, ?_, ?_⟩
  · exact (pad_preserves_quadrants testCore (repack32 testCore) rfl rfl
      rfl).1 0 0 (by decide) (by decide)
  · exact (pad_preserves_quadrants testCore (repack32 testCore) rfl rfl
      rfl).2.2.2 18 19 (by decide) (by decide) (by decide) (by decide)

/-- C2: for every 32x32 input the transform succeeds and its output has
size exactly 36x36. -/
theorem pad_output_size_36 (img : Image) (hw : img.width = 32)
    (hh : img.height = 32) :
    ∃ out, pad_2x2_tile_sheet img = Except.ok out ∧
      out.width = 36 ∧ out.height = 36 :=
  ⟨repack32 img, pad_ok_of_size32 img hw hh, rfl, rfl⟩

/-- C2 witness: instantiated at the concrete 32x32 image `testCore`. -/
theorem pad_output_size_36_witness :
    ∃ out, pad_2x2_tile_sheet testCore = Except.ok out ∧
      out.width = 36 ∧ out.height = 36 :=
  pad_output_size_36 testCore rfl rfl

/-- C3: for every 36x36 input the transform returns its input unchanged
(the pass-through branch), so applying it again never double-pads. -/
theorem pad_identity_on_36 (img : Image) (hw : img.width = 36)
    (hh : img.height = 36) :
    pad_2x2_tile_sheet img = Except.ok img := by
  simp [pad_2x2_tile_sheet, hw, hh]

/-- C3 witness: instantiated at the concrete 36x36 image `testPadded`. -/
theorem pad_identity_on_36_witness :
    pad_2x2_tile_sheet testPadded = Except.ok testPadded :=
  pad_identity_on_36 testPadded rfl rfl

/-- C4: for every 32x32 input, every output pixel in the gutter columns 16
and 17, gutter rows 16 and 17, or the border columns and rows 34 and 35 is
fully transparent black `(0,0,0,0)`. -/
theorem pad_gutters_transparent (img out : Image)
    (hw : img.width = 32) (hh : img.height = 32)
    (hout : pad_2x2_tile_sheet img = Except.ok out)
    (x y : Nat) (hx : x < 36) (hy : y < 36)
    (hg : x = 16 ∨ x = 17 ∨ y = 16 ∨ y = 17 ∨ 34 ≤ x ∨ 34 ≤ y) :
    out.pix x y = Pixel.clear := by
  rw [pad_ok_of_size32 img hw hh] at hout
  obtain rfl : repack32 img = out := by
    cases hout
    rfl
  rw [repack32_pix]
  split_ifs <;> first | rfl | omega

/-- C4 witness: on the concrete image `testCore`, a gutter pixel and a
border pixel of the output are transparent. -/
theorem pad_gutters_transparent_witness :
    ∃ out, pad_2x2_tile_sheet testCore = Except.ok out ∧
      out.pix 16 5 = Pixel.clear ∧ out.pix 35 35 = Pixel.clear :=
  ⟨repack32 testCore, rfl,
    pad_gutters_transparent testCore (repack32 testCore) rfl rfl rfl 16 5
      (by decide) (by decide) (Or.inl rfl),
    pad_gutters_transparent testCore (repack32 testCore) rfl rfl rfl 35 35
      (by decide) (by decide) (by decide)⟩

/-- C5: for every input whose size is neither 32x32 nor 36x36 the transform
fails with the shape-mismatch error and produces no output image, and the
error propagates through the driver loop: a run whose `storage-core.png`
source has such a size terminates with the error instead of completing. -/
theorem pad_shape_mismatch (img : Image)
    (h32 : ¬(img.width = 32 ∧ img.height = 32))
    (h36 : ¬(img.width = 36 ∧ img.height = 36)) :
    (∃ e, pad_2x2_tile_sheet img = Except.error e) ∧
    ∀ src, src "storage-core.png" = some img →
      ∃ e, runSync src = Except.error e := by
  have herr : pad_2x2_tile_sheet img =
      Except.error ("Expected tile source size 32x32 or 36x36, got " ++
        toString img.width ++ "x" ++ toString img.height) := by
    unfold pad_2x2_tile_sheet
    rw [if_neg h36, if_neg h32]
  refine ⟨⟨_, herr⟩, fun src hsrc => ?_⟩
  have htr : optTruthy (some "storage-heart.png") = true := by decide
  have hproc : processMapping src
      { source_name := "storage-core.png",
        item_target_name := some "storage-heart.png",
        tile_target_name := some "storage-heart.png",
        pad_tile_2x2 := true } =
      Except.error ("Expected tile source size 32x32 or 36x36, got " ++
        toString img.width ++ "x" ++ toString img.height) := by
    simp [processMapping, hsrc, htr, herr]
  have hrun : runSync src =
      Except.error ("Expected tile source size 32x32 or 36x36, got " ++
        toString img.width ++ "x" ++ toString img.height) := by
    simp only [runSync, MAPPINGS, runSyncAux, hproc]
  exact ⟨_, hrun⟩

/-- C5 witness: the 64x64 image `testBig` is rejected, and a source folder
serving it for every name makes the whole run fail. -/
theorem pad_shape_mismatch_witness :
    (∃ e, pad_2x2_tile_sheet testBig = Except.error e) ∧
    ∃ e, runSync (fun _ => some testBig) = Except.error e := by
  have h := pad_shape_mismatch testBig (by decide) (by decide)
  exact ⟨h.1, h.2 (fun _ => some testBig) rfl⟩

/-- A source folder holding exactly `storage-core.png` (image `a`) and
`storage-disk-tier-1.png` (image `b`); every other file, in particular
`storage-drive.png` and `disk-upgrader.png`, is missing. -/
def sourceTwo (a b : Image) : String → Option Image := fun n =>
  if n = "storage-core.png" then some a
  else if n = "storage-disk-tier-1.png" then some b
  else none

/-- C6 counterexample: on a source folder that contains `storage-core.png`
(32x32 opaque) and `storage-disk-tier-1.png` and is missing
`disk-upgrader.png` — exactly the scenario of the claim — the run reports
2 skipped sources, not 1, because the table's `storage-drive.png` record is
also skipped (and were `storage-drive.png` present instead, the run would
copy 5 outputs, not 3). -/
theorem sync_scenario_counterexample :
    (sourceTwo testCore testDisk "storage-core.png").isSome = true ∧
    (sourceTwo testCore testDisk "storage-disk-tier-1.png").isSome = true ∧
    sourceTwo testCore testDisk "disk-upgrader.png" = none ∧
    ∃ r, runSync (sourceTwo testCore testDisk) = Except.ok r ∧
      r.copied = 3 ∧ r.skipped = 2 ∧ ¬r.skipped = 1 := by
  refine ⟨rfl, rfl, rfl,
    ⟨[("items/storage-heart.png", testCore),
      ("tiles/storage-heart.png", repack32 testCore),
      ("items/storage-disk.png", testDisk)], 3, 2, 0⟩, rfl, rfl, rfl,
    by decide⟩

/-- C6 amended: with `storage-drive.png` also absent from the source
folder, the run produces exactly `items/storage-heart.png` (pixel-identical
to the 32x32 source), `tiles/storage-heart.png` (the 36x36 padded sheet)
and `items/storage-disk.png` (pixel-identical), no outputs for
`disk-upgrader.png`, and reports 3 outputs copied and 2 sources skipped,
returning exit code 0. -/
theorem sync_scenario_amended (core disk : Image)
    (hw : core.width = 32) (hh : core.height = 32) :
    ∃ padded r, pad_2x2_tile_sheet core = Except.ok padded ∧
      padded.width = 36 ∧ padded.height = 36 ∧
      runSync (sourceTwo core disk) = Except.ok r ∧
      r.outputs = [("items/storage-heart.png", core),
                   ("tiles/storage-heart.png", padded),
                   ("items/storage-disk.png", disk)] ∧
      r.copied = 3 ∧ r.skipped = 2 ∧ r.exitCode = 0 := by
  have hpad : pad_2x2_tile_sheet core = Except.ok (repack32 core) :=
    pad_ok_of_size32 core hw hh
  refine ⟨repack32 core,
    ⟨[("items/storage-heart.png", core),
      ("tiles/storage-heart.png", repack32 core),
      ("items/storage-disk.png", disk)], 3, 2, 0⟩,
    hpad, rfl, rfl, ?_, rfl, rfl, rfl, rfl⟩
  have h1 : "storage-heart.png".isEmpty = false := rfl
  have h2 : "storage-disk.png".isEmpty = false := rfl
  simp [runSync, runSyncAux, MAPPINGS, processMapping, sourceTwo, optTruthy,
    hpad, h1, h2]

/-- C6 amended witness: instantiated at the concrete images `testCore`
(32x32) and `testDisk`. -/
theorem sync_scenario_amended_witness :
    ∃ padded r, pad_2x2_tile_sheet testCore = Except.ok padded ∧
      padded.width = 36 ∧ padded.height = 36 ∧
      runSync (sourceTwo testCore testDisk) = Except.ok r ∧
      r.outputs = [("items/storage-heart.png", testCore),
                   ("tiles/storage-heart.png", padded),
                   ("items/storage-disk.png", testDisk)] ∧
      r.copied = 3 ∧ r.skipped = 2 ∧ r.exitCode = 0 :=
  sync_scenario_amended testCore testDisk rfl rfl

/-- The state visible to `pad_2x2_tile_sheet` while it runs: the converted
source image bound to `src` and the output canvas bound to `out`. -/
structure PadState where
  src : Image
  out : Image

/-- One `out.paste(src.crop(box), offset)` statement of the script as a
state transition: only the `out` component is written. -/
def PadState.pasteStep (s : PadState) (l t r b ox oy : Nat) : PadState :=
  ⟨s.src, s.out.paste (s.src.crop l t r b) ox oy⟩

/-- The statement sequence of the 32x32 branch of `pad_2x2_tile_sheet` as a
run of the state machine: convert, allocate, then the four pastes in
program order. -/
def padRun (image : Image) : PadState :=
  ((((PadState.mk image.convert (Image.new 36 36 Pixel.clear)).pasteStep
      0 0 16 16 0 0).pasteStep
      16 0 32 16 18 0).pasteStep
      0 16 16 32 0 18).pasteStep
      16 16 32 32 18 18

/-- C7: the transform is deterministic and side-effect-free — running the
paste sequence leaves the source image exactly as it was (every pixel, and
its size, unchanged), the output is the pure function `repack32` of the
input, and equal inputs give equal transform results. -/
theorem pad_deterministic_no_mutation (image : Image) :
    (padRun image).src = image ∧
    (padRun image).out = repack32 image ∧
    ∀ a b : Image, a = b → pad_2x2_tile_sheet a = pad_2x2_tile_sheet b :=
  ⟨rfl, rfl, fun _ _ h => h ▸ rfl⟩

/-- C7 witness: instantiated at the concrete image `testCore`, with the
determinism conjunct applied to the equal pair `(testCore, testCore)`. -/
theorem pad_deterministic_no_mutation_witness :
    (padRun testCore).src = testCore ∧
    (padRun testCore).out = repack32 testCore ∧
    pad_2x2_tile_sheet testCore = pad_2x2_tile_sheet testCore :=
  ⟨(pad_deterministic_no_mutation testCore).1,
   (pad_deterministic_no_mutation testCore).2.1,
   (pad_deterministic_no_mutation testCore).2.2 testCore testCore rfl⟩

/-- C8: every record of the static `MAPPINGS` table has at least one of
`item_target_name` or `tile_target_name` set. -/
theorem mappings_have_target :
    MAPPINGS.all
      (fun m => m.item_target_name.isSome || m.tile_target_name.isSome) =
      true := by
  decide

/-- C9: for any record whose `tile_target_name` is truthy and whose
`pad_tile_2x2` flag is false, processing writes the loaded source image to
the tile destination verbatim, with no size validation, and the tile output
is the same image as the item output when an item target is also set. -/
theorem tile_copied_verbatim (src : String → Option Image)
    (m : TextureMapping) (img : Image)
    (hf : src m.source_name = some img)
    (ht : optTruthy m.tile_target_name = true)
    (hp : m.pad_tile_2x2 = false) :
    ∃ outs c, processMapping src m = Except.ok (outs, c, 0) ∧
      ("tiles/" ++ m.tile_target_name.getD "", img) ∈ outs ∧
      (optTruthy m.item_target_name = true →
        ("items/" ++ m.item_target_name.getD "", img) ∈ outs) := by
  by_cases hi : optTruthy m.item_target_name = true
  · refine ⟨[("items/" ++ m.item_target_name.getD "", img),
      ("tiles/" ++ m.tile_target_name.getD "", img)], 2, ?_, ?_, ?_⟩ <;>
      simp [processMapping, hf, ht, hp, hi]
  · refine ⟨[("tiles/" ++ m.tile_target_name.getD "", img)], 1, ?_, ?_, ?_⟩ <;>
      simp [processMapping, hf, ht, hp, hi]

/-- A mapping record with both targets set and the padding flag off, for
exercising the verbatim tile copy. -/
def plainMapping : TextureMapping :=
  { source_name := "plain.png",
    item_target_name := some "plain-item.png",
    tile_target_name := some "plain-tile.png",
    pad_tile_2x2 := false }

/-- C9 witness: a 16x16 image (a size the transform would reject) is copied
verbatim to the tile destination of `plainMapping`. -/
theorem tile_copied_verbatim_witness :
    ∃ outs c, processMapping (fun _ => some testDisk) plainMapping =
        Except.ok (outs, c, 0) ∧
      ("tiles/" ++ plainMapping.tile_target_name.getD "", testDisk) ∈ outs ∧
      (optTruthy plainMapping.item_target_name = true →
        ("items/" ++ plainMapping.item_target_name.getD "", testDisk) ∈ outs) :=
  tile_copied_verbatim (fun _ => some testDisk) plainMapping testDisk rfl
    (by decide) rfl

/-- C10: whenever the driver loop runs to completion, `main` returns exit
code 0 — whatever the outputs and counters are. -/
theorem run_exit_code_zero (src : String → Option Image) (r : SyncResult)
    (h : runSync src = Except.ok r) : r.exitCode = 0 := by
  unfold runSync at h
  rcases haux : runSyncAux src MAPPINGS with e | x <;> rw [haux] at h
  · cases h
  · obtain ⟨o, c, s⟩ := x
    cases h
    rfl

/-- C10 witness: with every source file missing, the run still completes —
all 4 records skipped, zero outputs — and the exit code is 0. -/
theorem run_exit_code_zero_witness :
    runSync (fun _ => none) = Except.ok ⟨[], 0, 4, 0⟩ ∧
    (⟨[], 0, 4, 0⟩ : SyncResult).exitCode = 0 :=
  ⟨rfl, run_exit_code_zero (fun _ => none) ⟨[], 0, 4, 0⟩ rfl⟩
